import Mathlib

/-!
Shallow embedding of the `puppy_scrapper` repository core
(`puppy_scraper/storage.py`, `puppy_scraper/base_scraper.py`,
`puppy_scraper/scheduler.py`) and proofs about it.

Python dictionaries are modelled as association lists with Python's
insertion-order semantics: assigning to an existing key replaces the value
in place, assigning to a fresh key appends at the end.  Field values of a
litter record are modelled as strings (every field the core reads or
writes is a string).  Nondeterministic effects (the wall clock passed to
`datetime.now`, success or failure of each file read/write, the outcome of
each network strategy) are passed as explicit arguments.
-/

namespace PuppyScraper

/-! ### Python dict model -/

/-- Python `d[k]` / `d.get(k)`: value of the first (unique) matching key. -/
def dictLookup {α : Type} (m : List (String × α)) (k : String) : Option α :=
  match m with
  | [] => none
  | (k', v) :: rest => if k' = k then some v else dictLookup rest k

/-- Python `d[k] = v`: replace the value in place when the key exists,
append the pair at the end otherwise (insertion-order semantics). -/
def dictInsert {α : Type} (m : List (String × α)) (k : String) (v : α) :
    List (String × α) :=
  match m with
  | [] => [(k, v)]
  | (k', v') :: rest =>
    if k' = k then (k, v) :: rest else (k', v') :: dictInsert rest k v

/-- Python `d.keys()` in insertion order. -/
def dictKeys {α : Type} (m : List (String × α)) : List String :=
  m.map Prod.fst

/-- Python `d1.update(d2)`: assign every pair of `d2`, in order, into `d1`. -/
def dictUpdate {α : Type} (m d : List (String × α)) : List (String × α) :=
  d.foldl (fun acc kv => dictInsert acc kv.1 kv.2) m

/-- A litter record (`Dict[str, Any]` in the source, string-valued here). -/
abbrev Litter := List (String × String)

/-- Python `litter.get(k)`. -/
def pyGet (l : Litter) (k : String) : Option String := dictLookup l k

/-- Python `litter.get(k, d)`. -/
def pyGetD (l : Litter) (k : String) (d : String) : String :=
  (pyGet l k).getD d

/-- Python `litter[k] = v`. -/
def pySet (l : Litter) (k v : String) : Litter := dictInsert l k v

/-! ### storage.py -/

/-- The parsed content of the storage file:
`{'litters': {id: litter}, 'last_updated': ...}`. -/
structure StorageData where
  litters : List (String × Litter)
  last_updated : Option String
deriving DecidableEq, Repr

/-- The default data `_read_data` falls back to on a read error
(also the initial file content written by `_ensure_storage_exists`). -/
def emptyStorage : StorageData := { litters := [], last_updated := none }

/-- `LitterStorage._read_data`: parse the file; on any exception return the
default.  `readOk` is the outcome of this particular read attempt.  The
second component is the (unchanged) backing file. -/
def read_data (readOk : Bool) (file : StorageData) : StorageData × StorageData :=
  (if readOk then file else emptyStorage, file)

/-- `LitterStorage._write_data`: rewrite the whole file; on any exception
the error is logged and the file keeps its old content.  `writeOk` is the
outcome of this particular write attempt. -/
def write_data (writeOk : Bool) (file : StorageData) (d : StorageData) :
    StorageData :=
  if writeOk then d else file

/-- `LitterStorage.get_previous_litter_ids`: the key set of the stored
litter map (a set in the source; key lists are duplicate-free here). -/
def get_previous_litter_ids (readOk : Bool) (file : StorageData) :
    List String × StorageData :=
  let (data, file₁) := read_data readOk file
  (dictKeys data.litters, file₁)

/-- `LitterStorage.detect_new_litters`: loop over `current_litters`,
appending each litter whose `id` is truthy and not among the previous ids. -/
def detect_new_litters (readOk : Bool) (file : StorageData)
    (current_litters : List Litter) : List Litter × StorageData :=
  let (previous_ids, file₁) := get_previous_litter_ids readOk file
  let new_litters := current_litters.foldl (fun acc litter =>
    match pyGet litter "id" with
    | none => acc
    | some i => if i != "" && !(previous_ids.contains i) then acc ++ [litter] else acc) []
  (new_litters, file₁)

/-- The dict comprehension in `update_litters`:
`{litter['id']: litter for litter in litters if 'id' in litter}`. -/
def listToDict (litters : List Litter) : List (String × Litter) :=
  litters.foldl (fun acc litter =>
    match pyGet litter "id" with
    | none => acc
    | some i => dictInsert acc i litter) []

/-- `LitterStorage.update_litters`: read the file, merge the keyed records
into the stored map, stamp `last_updated` with the current time `now`, and
write the whole state back.  Returns the backing file after the write. -/
def update_litters (readOk writeOk : Bool) (now : String) (file : StorageData)
    (litters : List Litter) : StorageData :=
  let (data, file₁) := read_data readOk file
  let litter_dict := listToDict litters
  let data' : StorageData :=
    { litters := dictUpdate data.litters litter_dict, last_updated := some now }
  write_data writeOk file₁ data'

/-! ### MD5 (`hashlib.md5`), as used by `generate_litter_id` -/

def pow32 : Nat := 4294967296

/-- UTF-8 bytes of a character list (Python `str.encode()`). -/
def utf8Bytes : List Char → List Nat
  | [] => []
  | c :: cs =>
    let n := c.toNat
    (if n < 128 then [n]
     else if n < 2048 then [192 + n / 64, 128 + n % 64]
     else if n < 65536 then [224 + n / 4096, 128 + (n / 64) % 64, 128 + n % 64]
     else [240 + n / 262144, 128 + (n / 4096) % 64, 128 + (n / 64) % 64, 128 + n % 64])
      ++ utf8Bytes cs

/-- The 64 MD5 sine-derived round constants. -/
def md5K : List Nat :=
  [0xd76aa478, 0xe8c7b756, 0x242070db, 0xc1bdceee,
   0xf57c0faf, 0x4787c62a, 0xa8304613, 0xfd469501,
   0x698098d8, 0x8b44f7af, 0xffff5bb1, 0x895cd7be,
   0x6b901122, 0xfd987193, 0xa679438e, 0x49b40821,
   0xf61e2562, 0xc040b340, 0x265e5a51, 0xe9b6c7aa,
   0xd62f105d, 0x02441453, 0xd8a1e681, 0xe7d3fbc8,
   0x21e1cde6, 0xc33707d6, 0xf4d50d87, 0x455a14ed,
   0xa9e3e905, 0xfcefa3f8, 0x676f02d9, 0x8d2a4c8a,
   0xfffa3942, 0x8771f681, 0x6d9d6122, 0xfde5380c,
   0xa4beea44, 0x4bdecfa9, 0xf6bb4b60, 0xbebfbc70,
   0x289b7ec6, 0xeaa127fa, 0xd4ef3085, 0x04881d05,
   0xd9d4d039, 0xe6db99e5, 0x1fa27cf8, 0xc4ac5665,
   0xf4292244, 0x432aff97, 0xab9423a7, 0xfc93a039,
   0x655b59c3, 0x8f0ccc92, 0xffeff47d, 0x85845dd1,
   0x6fa87e4f, 0xfe2ce6e0, 0xa3014314, 0x4e0811a1,
   0xf7537e82, 0xbd3af235, 0x2ad7d2bb, 0xeb86d391]

/-- The 64 MD5 per-round left-rotation amounts. -/
def md5S : List Nat :=
  [7, 12, 17, 22, 7, 12, 17, 22, 7, 12, 17, 22, 7, 12, 17, 22,
   5, 9, 14, 20, 5, 9, 14, 20, 5, 9, 14, 20, 5, 9, 14, 20,
   4, 11, 16, 23, 4, 11, 16, 23, 4, 11, 16, 23, 4, 11, 16, 23,
   6, 10, 15, 21, 6, 10, 15, 21, 6, 10, 15, 21, 6, 10, 15, 21]

/-- 32-bit left rotation. -/
def rotl32 (x s : Nat) : Nat :=
  (x * 2 ^ s + x / 2 ^ (32 - s)) % pow32

/-- Bitwise complement within 32 bits. -/
def not32 (x : Nat) : Nat := x ^^^ (pow32 - 1)

/-- `count` little-endian bytes of `v`. -/
def leBytes : Nat → Nat → List Nat
  | 0, _ => []
  | n + 1, v => v % 256 :: leBytes n (v / 256)

/-- The `j`-th little-endian 32-bit word of a 64-byte chunk. -/
def md5Word (chunk : List Nat) (j : Nat) : Nat :=
  chunk.getD (4 * j) 0 + 256 * chunk.getD (4 * j + 1) 0
    + 65536 * chunk.getD (4 * j + 2) 0 + 16777216 * chunk.getD (4 * j + 3) 0

/-- One MD5 round: update `(A, B, C, D)` with round index `i`. -/
def md5Round (chunk : List Nat) (st : Nat × Nat × Nat × Nat) (i : Nat) :
    Nat × Nat × Nat × Nat :=
  let (a, b, c, d) := st
  let f :=
    if i < 16 then (b &&& c) ||| (not32 b &&& d)
    else if i < 32 then (d &&& b) ||| (not32 d &&& c)
    else if i < 48 then b ^^^ c ^^^ d
    else c ^^^ (b ||| not32 d)
  let g :=
    if i < 16 then i
    else if i < 32 then (5 * i + 1) % 16
    else if i < 48 then (3 * i + 5) % 16
    else (7 * i) % 16
  let t := (f + a + md5K.getD i 0 + md5Word chunk g) % pow32
  (d, (b + rotl32 t (md5S.getD i 0)) % pow32, b, c)

/-- Absorb one 64-byte chunk into the running state. -/
def md5Chunk (st : Nat × Nat × Nat × Nat) (chunk : List Nat) :
    Nat × Nat × Nat × Nat :=
  let (a0, b0, c0, d0) := st
  let (a, b, c, d) := (List.range 64).foldl (md5Round chunk) (a0, b0, c0, d0)
  ((a0 + a) % pow32, (b0 + b) % pow32, (c0 + c) % pow32, (d0 + d) % pow32)

/-- Absorb `n` chunks of 64 bytes each. -/
def md5Chunks : Nat → List Nat → Nat × Nat × Nat × Nat → Nat × Nat × Nat × Nat
  | 0, _, st => st
  | n + 1, bytes, st => md5Chunks n (bytes.drop 64) (md5Chunk st (bytes.take 64))

/-- MD5 padding: `0x80`, zeros to 56 mod 64, then the 64-bit LE bit length. -/
def md5Pad (msg : List Nat) : List Nat :=
  let l := msg.length
  msg ++ [128] ++ List.replicate ((119 - l % 64) % 64) 0
    ++ leBytes 8 ((8 * l) % (pow32 * pow32))

/-- The lowercase hex digit for `n < 16`: `0`–`9` then `a`–`f`. -/
def hexDigit (n : Nat) : Char :=
  if n < 10 then Char.ofNat (48 + n) else Char.ofNat (87 + n)

def hexByte (b : Nat) : List Char := [hexDigit (b / 16), hexDigit (b % 16)]

/-- Lowercase hex MD5 digest of a string
(`hashlib.md5(s.encode()).hexdigest()`). -/
def md5Hex (s : String) : String :=
  let msg := utf8Bytes s.data
  let padded := md5Pad msg
  let (a, b, c, d) :=
    md5Chunks (padded.length / 64) padded
      (0x67452301, 0xefcdab89, 0x98badcfe, 0x10325476)
  String.mk
    (((leBytes 4 a ++ leBytes 4 b ++ leBytes 4 c ++ leBytes 4 d).map hexByte).flatten)

/-- The translated MD5 agrees with `hashlib` on the reference vector. -/
example : md5Hex "abc" = "900150983cd24fb0d6963f7d28e17f72" := by decide

/-! ### base_scraper.py -/

/-- `BaseScraper.generate_litter_id`: md5 of the defining fields
(breeder, mating date, expected date) joined by `-`. -/
def generate_litter_id (litter : Litter) : String :=
  md5Hex (pyGetD litter "breeder" "" ++ "-" ++ pyGetD litter "mating_date" ""
    ++ "-" ++ pyGetD litter "expected_date" "")

deriving instance DecidableEq for Except

/-- One configured scraper: its friendly `name`, its `url`, and the outcome
of `fetch_page` followed by `parse_litters` for this run (an exception
message, or the parsed litter list). -/
structure Scraper where
  name : String
  url : String
  fetch_parse : Except String (List Litter)
deriving DecidableEq, Repr

/-- `BaseScraper.scrape`: on any exception, log the error and return the
empty list; on success, stamp each parsed litter with `source`,
`source_url` and the generated `id`.  Second component: the lines this
call writes to the error log. -/
def scrape (s : Scraper) : List Litter × List String :=
  match s.fetch_parse with
  | .error e => ([], ["Error scraping " ++ s.name ++ ": " ++ e])
  | .ok litters =>
    (litters.map (fun litter =>
      let litter₁ := pySet (pySet litter "source" s.name) "source_url" s.url
      pySet litter₁ "id" (generate_litter_id litter₁)), [])

/-- `BaseScraper.fetch_page`: the nested try/except chain over the four
acquisition strategies.  `s1`–`s4` are the outcomes of
cloudscraper-direct, httpx HTTP/2, httpx HTTP/2 with homepage visit, and
Selenium; each is an exception message or the fetched page.  Returns the
propagated result, the warning/error log lines, and the list of strategy
numbers that were attempted, in order. -/
def fetch_page (url : String) (s1 s2 s3 s4 : Except String String) :
    Except String String × List String × List Nat :=
  match s1 with
  | .ok soup => (.ok soup, [], [1])
  | .error e1 =>
    match s2 with
    | .ok soup => (.ok soup, ["Strategy 1 failed: " ++ e1], [1, 2])
    | .error e2 =>
      match s3 with
      | .ok soup =>
        (.ok soup, ["Strategy 1 failed: " ++ e1, "Strategy 2 failed: " ++ e2], [1, 2, 3])
      | .error e3 =>
        match s4 with
        | .ok soup =>
          (.ok soup,
           ["Strategy 1 failed: " ++ e1, "Strategy 2 failed: " ++ e2,
            "Strategy 3 failed: " ++ e3], [1, 2, 3, 4])
        | .error e4 =>
          (.error ("Failed to fetch " ++ url ++ " after trying all strategies"),
           ["Strategy 1 failed: " ++ e1, "Strategy 2 failed: " ++ e2,
            "Strategy 3 failed: " ++ e3,
            "All strategies failed for " ++ url,
            "  - Strategy 1 (cloudscraper): " ++ e1,
            "  - Strategy 2 (httpx HTTP/2): " ++ e2,
            "  - Strategy 3 (httpx HTTP/2 with session): " ++ e3,
            "  - Strategy 4 (Selenium): " ++ e4], [1, 2, 3, 4])

/-- `n` occurs as a contiguous substring of `h`. -/
def strContains (h n : String) : Bool :=
  (List.range (h.data.length + 1)).any (fun i => n.data.isPrefixOf (h.data.drop i))

/-! ### scheduler.py -/

/-- The observable outcome of one `ScraperScheduler.run_once` cycle:
the accumulated litters, the newly detected litters, the litters passed
one by one to `_log_new_litter` (reporting), the backing storage file
after the cycle, and the error-log lines of the cycle. -/
structure RunResult where
  all_litters : List Litter
  new_litters : List Litter
  reported : List Litter
  file : StorageData
  log : List String
deriving DecidableEq, Repr

/-- `ScraperScheduler.run_once`: run every scraper (each `scrape` call
catches its own exceptions), accumulate all litters, detect the new ones
against storage, report each new litter, then unconditionally update
storage with the full accumulated list.  `roDetect`/`roUpdate` are the
outcomes of the two storage-file reads (inside `detect_new_litters` and
inside `update_litters`), `writeOk` the outcome of the storage write. -/
def run_once (scrapers : List Scraper) (roDetect roUpdate writeOk : Bool)
    (now : String) (file : StorageData) : RunResult :=
  let acc := scrapers.foldl
    (fun acc s => (acc.1 ++ (scrape s).1, acc.2 ++ (scrape s).2)) ([], [])
  let dn := detect_new_litters roDetect file acc.1
  let file₂ := update_litters roUpdate writeOk now dn.2 acc.1
  { all_litters := acc.1, new_litters := dn.1,
    reported := dn.1, file := file₂, log := acc.2 }

/-! ### Lemmas about the dict model -/

@[simp] theorem dictKeys_nil {α : Type} : dictKeys ([] : List (String × α)) = [] := rfl

@[simp] theorem dictKeys_cons {α : Type} (k : String) (v : α) (m : List (String × α)) :
    dictKeys ((k, v) :: m) = k :: dictKeys m := rfl

@[simp] theorem dictKeys_append {α : Type} (m m' : List (String × α)) :
    dictKeys (m ++ m') = dictKeys m ++ dictKeys m' := by
  simp [dictKeys]

@[simp] theorem dictLookup_nil {α : Type} (k : String) :
    dictLookup ([] : List (String × α)) k = none := rfl

theorem dictLookup_cons {α : Type} (k' k : String) (v : α) (m : List (String × α)) :
    dictLookup ((k', v) :: m) k = if k' = k then some v else dictLookup m k := rfl

theorem dictLookup_insert_self {α : Type} (m : List (String × α)) (k : String) (v : α) :
    dictLookup (dictInsert m k v) k = some v := by
  induction m with
  | nil => simp [dictInsert, dictLookup]
  | cons kv rest ih =>
    obtain ⟨k', v'⟩ := kv
    by_cases h : k' = k <;> simp [dictInsert, dictLookup, h, ih]

theorem pyGet_pySet_self (l : Litter) (k v : String) : pyGet (pySet l k v) k = some v :=
  dictLookup_insert_self l k v

theorem dictLookup_insert_ne {α : Type} {k k0 : String} (h : k0 ≠ k)
    (m : List (String × α)) (v0 : α) :
    dictLookup (dictInsert m k0 v0) k = dictLookup m k := by
  induction m with
  | nil => simp [dictInsert, dictLookup, h]
  | cons kv rest ih =>
    obtain ⟨k', v'⟩ := kv
    by_cases hk : k' = k0
    · subst hk
      simp [dictInsert, dictLookup_cons, h]
    · simp [dictInsert, hk, dictLookup_cons, ih]

theorem dictInsert_of_lookup_eq {α : Type} {m : List (String × α)} {k : String} {v : α}
    (h : dictLookup m k = some v) : dictInsert m k v = m := by
  induction m with
  | nil => simp [dictLookup] at h
  | cons kv rest ih =>
    obtain ⟨k', v'⟩ := kv
    by_cases hk : k' = k
    · rw [dictLookup_cons, if_pos hk] at h
      obtain rfl : v' = v := by injection h
      simp [dictInsert, hk]
    · rw [dictLookup_cons, if_neg hk] at h
      simp [dictInsert, hk, ih h]

theorem dictInsert_of_not_mem {α : Type} {m : List (String × α)} {k : String}
    (h : k ∉ dictKeys m) (v : α) : dictInsert m k v = m ++ [(k, v)] := by
  induction m with
  | nil => simp [dictInsert]
  | cons kv rest ih =>
    obtain ⟨k', v'⟩ := kv
    rw [dictKeys_cons, List.mem_cons] at h
    push_neg at h
    have hk : k' ≠ k := fun hk => h.1 hk.symm
    simp [dictInsert, hk, ih h.2]

theorem dictKeys_insert_mem {α : Type} {m : List (String × α)} {k : String}
    (h : k ∈ dictKeys m) (v : α) : dictKeys (dictInsert m k v) = dictKeys m := by
  induction m with
  | nil => simp at h
  | cons kv rest ih =>
    obtain ⟨k', v'⟩ := kv
    by_cases hk : k' = k
    · subst hk
      simp [dictInsert]
    · rw [dictKeys_cons, List.mem_cons] at h
      rcases h with h | h
      · exact absurd h.symm hk
      · simp [dictInsert, hk, ih h]

theorem nodup_keys_insert {α : Type} {m : List (String × α)}
    (h : (dictKeys m).Nodup) (k : String) (v : α) :
    (dictKeys (dictInsert m k v)).Nodup := by
  by_cases hk : k ∈ dictKeys m
  · rw [dictKeys_insert_mem hk]
    exact h
  · rw [dictInsert_of_not_mem hk]
    simp only [dictKeys_append, dictKeys_cons, dictKeys_nil]
    exact List.Nodup.append h (by simp) (by simpa [List.disjoint_right] using hk)

theorem dictLookup_update_not_mem {α : Type} {D : List (String × α)} {k : String}
    (h : k ∉ dictKeys D) (m : List (String × α)) :
    dictLookup (dictUpdate m D) k = dictLookup m k := by
  induction D generalizing m with
  | nil => rfl
  | cons kv D' ih =>
    obtain ⟨k0, v0⟩ := kv
    rw [dictKeys_cons, List.mem_cons] at h
    push_neg at h
    show dictLookup (dictUpdate (dictInsert m k0 v0) D') k = _
    rw [ih h.2, dictLookup_insert_ne (fun hk => h.1 hk.symm)]

theorem dictLookup_update_mem {α : Type} {D : List (String × α)}
    (hD : (dictKeys D).Nodup) {k : String} {v : α} (h : (k, v) ∈ D)
    (m : List (String × α)) : dictLookup (dictUpdate m D) k = some v := by
  induction D generalizing m with
  | nil => simp at h
  | cons kv D' ih =>
    obtain ⟨k0, v0⟩ := kv
    rw [dictKeys_cons, List.nodup_cons] at hD
    rcases List.mem_cons.mp h with h | h
    · cases h
      show dictLookup (dictUpdate (dictInsert m k v) D') k = some v
      rw [dictLookup_update_not_mem hD.1, dictLookup_insert_self]
    · exact ih hD.2 h _

theorem dictUpdate_self {α : Type} {M D : List (String × α)}
    (h : ∀ kv ∈ D, dictLookup M kv.1 = some kv.2) : dictUpdate M D = M := by
  induction D with
  | nil => rfl
  | cons kv D' ih =>
    obtain ⟨k0, v0⟩ := kv
    show dictUpdate (dictInsert M k0 v0) D' = M
    rw [dictInsert_of_lookup_eq (h (k0, v0) (by simp))]
    exact ih (fun kv hkv => h kv (by simp [hkv]))

theorem dictUpdate_of_disjoint {α : Type} {D : List (String × α)}
    (hD : (dictKeys D).Nodup) :
    ∀ acc : List (String × α), (∀ k ∈ dictKeys D, k ∉ dictKeys acc) →
      dictUpdate acc D = acc ++ D := by
  induction D with
  | nil => intro acc _; simp [dictUpdate]
  | cons kv D' ih =>
    intro acc hdisj
    obtain ⟨k0, v0⟩ := kv
    rw [dictKeys_cons, List.nodup_cons] at hD
    show dictUpdate (dictInsert acc k0 v0) D' = acc ++ (k0, v0) :: D'
    rw [dictInsert_of_not_mem (hdisj k0 (by simp)) v0,
      ih hD.2 (acc ++ [(k0, v0)]) ?_]
    · simp
    · intro k hk
      simp only [dictKeys_append, dictKeys_cons, dictKeys_nil, List.mem_append,
        List.mem_singleton]
      push_neg
      exact ⟨hdisj k (by simp [hk]), fun hk0 => hD.1 (hk0 ▸ hk)⟩

theorem dictUpdate_nil_left {α : Type} {D : List (String × α)}
    (hD : (dictKeys D).Nodup) : dictUpdate [] D = D := by
  simpa using dictUpdate_of_disjoint hD [] (by simp)

theorem nodup_keys_listToDict (X : List Litter) :
    (dictKeys (listToDict X)).Nodup := by
  have gen : ∀ (acc : List (String × Litter)), (dictKeys acc).Nodup →
      (dictKeys (X.foldl (fun acc litter =>
        match pyGet litter "id" with
        | none => acc
        | some i => dictInsert acc i litter) acc)).Nodup := by
    induction X with
    | nil => intro acc h; exact h
    | cons l X' ih =>
      intro acc h
      cases hid : pyGet l "id" with
      | none => simpa [List.foldl, hid] using ih acc h
      | some i => simpa [List.foldl, hid] using ih _ (nodup_keys_insert h i l)
  exact gen [] (by simp)

/-! ### Characterization lemmas for the storage operations -/

/-- The test `detect_new_litters` applies to each record: its `id` is
present, nonempty, and absent from the previous-id set. -/
def isNewLitter (previous_ids : List String) (litter : Litter) : Bool :=
  match pyGet litter "id" with
  | none => false
  | some i => i != "" && !(previous_ids.contains i)

theorem foldl_detect (prev : List String) (cur acc : List Litter) :
    cur.foldl (fun acc litter =>
      match pyGet litter "id" with
      | none => acc
      | some i => if i != "" && !(prev.contains i) then acc ++ [litter] else acc) acc
    = acc ++ cur.filter (isNewLitter prev) := by
  induction cur generalizing acc with
  | nil => simp
  | cons l cur ih =>
    simp only [List.foldl_cons, List.filter_cons]
    cases hid : pyGet l "id" with
    | none =>
      have hnew : isNewLitter prev l = false := by simp [isNewLitter, hid]
      simp only [hid, hnew, Bool.false_eq_true, if_false]
      exact ih acc
    | some i =>
      have hnew : isNewLitter prev l = (i != "" && !(prev.contains i)) := by
        simp only [isNewLitter, hid]
      simp only [hid, hnew]
      by_cases hc : (i != "" && !(prev.contains i)) = true
      · rw [if_pos hc, if_pos hc, ih]
        simp
      · rw [if_neg hc, if_neg hc]
        exact ih acc

theorem detect_new_litters_eq_filter (readOk : Bool) (file : StorageData)
    (cur : List Litter) :
    (detect_new_litters readOk file cur).1
      = cur.filter (isNewLitter (dictKeys (if readOk then file else emptyStorage).litters)) := by
  refine Eq.trans (foldl_detect (dictKeys (if readOk then file else emptyStorage).litters) cur [])
    (List.nil_append _)

theorem update_litters_ok (now : String) (file : StorageData) (X : List Litter) :
    update_litters true true now file X
      = { litters := dictUpdate file.litters (listToDict X),
          last_updated := some now } := rfl

theorem update_litters_read_fail (now : String) (file : StorageData) (X : List Litter) :
    update_litters false true now file X
      = { litters := dictUpdate [] (listToDict X), last_updated := some now } := rfl

theorem update_litters_write_fail (ro : Bool) (now : String) (file : StorageData)
    (X : List Litter) : update_litters ro false now file X = file := by
  cases ro <;> rfl

theorem mem_dictInsert {α : Type} {m : List (String × α)} {k : String} {v : α}
    {kv : String × α} (h : kv ∈ dictInsert m k v) : kv ∈ m ∨ kv = (k, v) := by
  induction m with
  | nil => simpa [dictInsert] using h
  | cons kv' rest ih =>
    obtain ⟨k', v'⟩ := kv'
    rw [dictInsert] at h
    by_cases hk : k' = k
    · rw [if_pos hk] at h
      rcases List.mem_cons.mp h with h | h
      · exact .inr h
      · exact .inl (List.mem_cons_of_mem _ h)
    · rw [if_neg hk] at h
      rcases List.mem_cons.mp h with h | h
      · exact .inl (by rw [h]; exact List.mem_cons_self _ _)
      · rcases ih h with h | h
        · exact .inl (List.mem_cons_of_mem _ h)
        · exact .inr h

/-- Every entry the `update_litters` dict comprehension produces is keyed by
the `id` field of its value. -/
theorem listToDict_mem (X : List Litter) :
    ∀ kv ∈ listToDict X, pyGet kv.2 "id" = some kv.1 := by
  have gen : ∀ (acc : List (String × Litter)),
      (∀ kv ∈ acc, pyGet kv.2 "id" = some kv.1) →
      ∀ kv ∈ X.foldl (fun acc litter =>
        match pyGet litter "id" with
        | none => acc
        | some i => dictInsert acc i litter) acc, pyGet kv.2 "id" = some kv.1 := by
    induction X with
    | nil => intro acc h; exact h
    | cons l X' ih =>
      intro acc h
      cases hid : pyGet l "id" with
      | none => simpa [List.foldl, hid] using ih acc h
      | some i =>
        have hacc : ∀ kv ∈ dictInsert acc i l, pyGet kv.2 "id" = some kv.1 := by
          intro kv' hkv'
          rcases mem_dictInsert hkv' with hm | hm
          · exact h kv' hm
          · subst hm
            exact hid
        intro kv hkv
        exact ih (dictInsert acc i l) hacc kv (by simpa [List.foldl, hid] using hkv)
  exact gen [] (by simp)

/-- The hex digest of the translated MD5 is never the empty string. -/
theorem md5Hex_ne_empty (s : String) : md5Hex s ≠ "" := by
  rcases hchunks : md5Chunks ((md5Pad (utf8Bytes s.data)).length / 64)
      (md5Pad (utf8Bytes s.data)) (0x67452301, 0xefcdab89, 0x98badcfe, 0x10325476)
    with ⟨a, b, c, d⟩
  have hle : leBytes 4 a = a % 256 :: leBytes 3 (a / 256) := rfl
  simp only [md5Hex, hchunks, hle]
  intro h
  have := congrArg String.data h
  simp [hexByte] at this

/-! ### Characterization lemmas for the scheduler -/

/-- The litters produced by running a list of scrapers in order
(each contributing `[]` on failure). -/
def scrapeResults (scrapers : List Scraper) : List Litter :=
  (scrapers.map (fun s => (scrape s).1)).flatten

/-- The error-log lines produced by running a list of scrapers in order. -/
def scrapeLogs (scrapers : List Scraper) : List String :=
  (scrapers.map (fun s => (scrape s).2)).flatten

theorem foldl_scrape (scrapers : List Scraper) (acc : List Litter × List String) :
    scrapers.foldl (fun acc s => (acc.1 ++ (scrape s).1, acc.2 ++ (scrape s).2)) acc
    = (acc.1 ++ scrapeResults scrapers, acc.2 ++ scrapeLogs scrapers) := by
  induction scrapers generalizing acc with
  | nil => simp [scrapeResults, scrapeLogs]
  | cons s rest ih =>
    simp [List.foldl, ih, scrapeResults, scrapeLogs, List.append_assoc]

/-! ### Claim theorems -/

/-- C1 (amended): for every previous StorageState and every input list of
records, `detect_new_litters` (with the storage read succeeding) returns
exactly the sublist of input records whose Identity is present, nonempty
and absent from the stored key set, preserving input order; when the same
absent Identity occurs more than once in the input, every occurrence is
returned (there is no within-batch deduplication). -/
theorem detect_new_litters_filter_spec (file : StorageData) (cur : List Litter) :
    (detect_new_litters true file cur).1
        = cur.filter (isNewLitter (dictKeys file.litters))
    ∧ List.Sublist ((detect_new_litters true file cur).1) cur := by
  have h := detect_new_litters_eq_filter true file cur
  simp only [if_true] at h
  exact ⟨h, h ▸ List.filter_sublist cur⟩

/-- C1 (counterexample): the same unseen Identity occurring twice in one
batch is returned twice by `detect_new_litters`, so the output does have
duplicate Identities, contradicting the claimed keep-first deduplication. -/
theorem detect_new_litters_dedup_counterexample :
    (detect_new_litters true emptyStorage [[("id", "x")], [("id", "x")]]).1
        = [[("id", "x")], [("id", "x")]]
    ∧ ¬ (((detect_new_litters true emptyStorage
          [[("id", "x")], [("id", "x")]]).1.map (fun l => pyGet l "id")).Nodup) := by
  decide

/-- C2 (amended): `generate_litter_id` assigns a (nonempty) Identity to
every record, including records whose defining fields are all empty or
missing; every record produced by `scrape` carries such an id.  The
exclusions that do hold are: a record without a truthy `id` value (the
key missing, or its value the empty string) is excluded from
`detect_new_litters`' output, and a record without an `id` key never
occurs as a value of the dict that `update_litters` merges into
storage. -/
theorem identity_always_assigned (litter l : Litter) (name url : String)
    (raws : List Litter) (file : StorageData) (current : List Litter) :
    generate_litter_id litter ≠ ""
    ∧ (∀ x ∈ (scrape ⟨name, url, .ok raws⟩).1,
        (pyGet x "id").isSome = true ∧ pyGet x "id" ≠ some "")
    ∧ (pyGet l "id" = none ∨ pyGet l "id" = some ""
        → l ∉ (detect_new_litters true file current).1)
    ∧ (pyGet l "id" = none → ∀ kv ∈ listToDict current, kv.2 ≠ l) := by
  refine ⟨md5Hex_ne_empty _, ?_, ?_, ?_⟩
  · intro x hx
    simp only [scrape, List.mem_map] at hx
    obtain ⟨litter, _hmem, rfl⟩ := hx
    refine ⟨by simp [pyGet_pySet_self], ?_⟩
    rw [pyGet_pySet_self]
    intro hcontra
    exact md5Hex_ne_empty _ (by injection hcontra)
  · intro hid hmem
    rw [detect_new_litters_eq_filter] at hmem
    have hfilter := (List.mem_filter.mp hmem).2
    rcases hid with hnone | hempty
    · simp [isNewLitter, hnone] at hfilter
    · simp [isNewLitter, hempty] at hfilter
  · intro hnone kv hkv heq
    have hkey := listToDict_mem current kv hkv
    rw [heq, hnone] at hkey
    exact Option.noConfusion hkey

/-- C2 (witness): the amended exclusion facts at concrete inputs — a
record with no `id` key, and a record with the empty-string `id`, are
each kept out of the detection output. -/
theorem identity_always_assigned_witness :
    generate_litter_id [] ≠ ""
    ∧ ([] : Litter) ∉ (detect_new_litters true emptyStorage [[]]).1
    ∧ ([("id", "")] : Litter)
        ∉ (detect_new_litters true emptyStorage [[("id", "")]]).1 := by
  have h := identity_always_assigned [] [] "n" "u" [] emptyStorage [[]]
  have h' := identity_always_assigned [] [("id", "")] "n" "u" [] emptyStorage
    [[("id", "")]]
  exact ⟨h.1, h.2.2.1 (Or.inl rfl), h'.2.2.1 (Or.inr rfl)⟩

/-- C2 (counterexample): a record whose defining fields are all missing is
assigned the Identity `md5("--")`, is returned by `detect_new_litters`,
and is persisted by `update_litters`, contradicting the claimed
"no identity, no persistence, no new-record reporting" policy. -/
theorem empty_record_identity_counterexample :
    generate_litter_id [] = "cfab1ba8c67c7c838db98d666f02a132"
    ∧ ((scrape ⟨"n", "u", .ok [[]]⟩).1.map (fun l => pyGet l "id")
        = [some "cfab1ba8c67c7c838db98d666f02a132"])
    ∧ (detect_new_litters true emptyStorage (scrape ⟨"n", "u", .ok [[]]⟩).1).1
        = (scrape ⟨"n", "u", .ok [[]]⟩).1
    ∧ (update_litters true true "t" emptyStorage (scrape ⟨"n", "u", .ok [[]]⟩).1).litters
        ≠ [] := by
  decide

/-- C3: the Identity function `generate_litter_id` is a deterministic pure
function of exactly the defining fields: two records that agree on
breeder, mating date and expected date (as read with default `""`) get
the same Identity, whatever their other fields are. -/
theorem generate_litter_id_deterministic (r1 r2 : Litter)
    (hb : pyGetD r1 "breeder" "" = pyGetD r2 "breeder" "")
    (hm : pyGetD r1 "mating_date" "" = pyGetD r2 "mating_date" "")
    (he : pyGetD r1 "expected_date" "" = pyGetD r2 "expected_date" "") :
    generate_litter_id r1 = generate_litter_id r2 := by
  simp only [generate_litter_id, hb, hm, he]

/-- C3 (witness): two records with the same defining fields but different
non-defining fields (source label, free text) collide to one Identity. -/
theorem generate_litter_id_deterministic_witness :
    generate_litter_id [("breeder", "John"), ("mating_date", "2024-01-01"),
        ("expected_date", "2024-03-01"), ("source", "club A"), ("description", "cute")]
      = generate_litter_id [("breeder", "John"), ("mating_date", "2024-01-01"),
        ("expected_date", "2024-03-01"), ("source", "club B")] :=
  generate_litter_id_deterministic _ _ (by decide) (by decide) (by decide)

/-- C4: `fetch_page` tries the strategies in the fixed declared order
(cloudscraper direct, httpx HTTP/2, httpx HTTP/2 with homepage visit,
Selenium last); the first success is returned and later strategies are
never attempted (the attempted-strategy list stops at the winner); the
aggregate failure is raised exactly when all four strategies fail. -/
theorem fetch_page_first_success_wins (url p e1 e2 e3 e4 : String)
    (s1 s2 s3 s4 t2 t3 t4 : Except String String) :
    (fetch_page url (.ok p) t2 t3 t4).1 = .ok p
    ∧ (fetch_page url (.ok p) t2 t3 t4).2.2 = [1]
    ∧ (fetch_page url (.error e1) (.ok p) t3 t4).1 = .ok p
    ∧ (fetch_page url (.error e1) (.ok p) t3 t4).2.2 = [1, 2]
    ∧ (fetch_page url (.error e1) (.error e2) (.ok p) t4).1 = .ok p
    ∧ (fetch_page url (.error e1) (.error e2) (.ok p) t4).2.2 = [1, 2, 3]
    ∧ (fetch_page url (.error e1) (.error e2) (.error e3) (.ok p)).1 = .ok p
    ∧ (fetch_page url (.error e1) (.error e2) (.error e3) (.ok p)).2.2 = [1, 2, 3, 4]
    ∧ (fetch_page url (.error e1) (.error e2) (.error e3) (.error e4)).1
        = .error ("Failed to fetch " ++ url ++ " after trying all strategies")
    ∧ ((fetch_page url s1 s2 s3 s4).1.isOk = false
        ↔ (s1.isOk = false ∧ s2.isOk = false ∧ s3.isOk = false ∧ s4.isOk = false)) := by
  refine ⟨rfl, rfl, rfl, rfl, rfl, rfl, rfl, rfl, rfl, ?_⟩
  cases s1 <;> cases s2 <;> cases s3 <;> cases s4 <;>
    simp [fetch_page, Except.isOk, Except.toBool]

/-- C5 (amended): when every strategy fails, the per-strategy failure
reasons (strategy identifier and error description, one line per
strategy) are written to the error log before the aggregate exception is
raised; the exception that propagates to the caller carries only the URL,
not the per-strategy reasons. -/
theorem fetch_page_reasons_logged_not_raised (url e1 e2 e3 e4 : String) :
    (fetch_page url (.error e1) (.error e2) (.error e3) (.error e4)).1
        = .error ("Failed to fetch " ++ url ++ " after trying all strategies")
    ∧ ("  - Strategy 1 (cloudscraper): " ++ e1)
        ∈ (fetch_page url (.error e1) (.error e2) (.error e3) (.error e4)).2.1
    ∧ ("  - Strategy 2 (httpx HTTP/2): " ++ e2)
        ∈ (fetch_page url (.error e1) (.error e2) (.error e3) (.error e4)).2.1
    ∧ ("  - Strategy 3 (httpx HTTP/2 with session): " ++ e3)
        ∈ (fetch_page url (.error e1) (.error e2) (.error e3) (.error e4)).2.1
    ∧ ("  - Strategy 4 (Selenium): " ++ e4)
        ∈ (fetch_page url (.error e1) (.error e2) (.error e3) (.error e4)).2.1 := by
  refine ⟨rfl, ?_, ?_, ?_, ?_⟩ <;> simp [fetch_page]

/-- C5 (counterexample): with concrete per-strategy error descriptions
`E1`–`E4`, the exception propagated after total exhaustion contains none
of them (nor any strategy identifier beyond the bare message), refuting
the claim that each attempted strategy's identifier and error description
are contained in the propagated failure. -/
theorem fetch_page_reasons_counterexample :
    (fetch_page "u" (.error "E1") (.error "E2") (.error "E3") (.error "E4")).1
        = .error "Failed to fetch u after trying all strategies"
    ∧ strContains "Failed to fetch u after trying all strategies" "E1" = false
    ∧ strContains "Failed to fetch u after trying all strategies" "E2" = false
    ∧ strContains "Failed to fetch u after trying all strategies" "E3" = false
    ∧ strContains "Failed to fetch u after trying all strategies" "E4" = false := by
  decide

/-- C6 (amended): `update_litters` is idempotent on the stored
`{Identity -> StoredRecord}` map — updating twice with the same input
(reads and writes succeeding) leaves the same map as updating once — but
`last_updated` is stamped with the wall-clock time of the most recent
call, so the full StorageState is unchanged only when the two calls carry
the same timestamp. -/
theorem update_litters_idempotent_map (file : StorageData) (X : List Litter)
    (t1 t2 : String) :
    (update_litters true true t2 (update_litters true true t1 file X) X).litters
        = (update_litters true true t1 file X).litters
    ∧ (update_litters true true t2 (update_litters true true t1 file X) X).last_updated
        = some t2
    ∧ (t1 = t2 → update_litters true true t2 (update_litters true true t1 file X) X
        = update_litters true true t1 file X) := by
  have hmap : dictUpdate (dictUpdate file.litters (listToDict X)) (listToDict X)
      = dictUpdate file.litters (listToDict X) :=
    dictUpdate_self (fun kv hkv =>
      dictLookup_update_mem (nodup_keys_listToDict X) (by simpa using hkv) file.litters)
  refine ⟨?_, rfl, ?_⟩
  · simpa only [update_litters_ok] using hmap
  · intro h
    subst h
    simp only [update_litters_ok, hmap]

/-- C6 (witness): updating twice with the same timestamp reproduces the
state of the first update exactly. -/
theorem update_litters_idempotent_map_witness :
    update_litters true true "t"
        (update_litters true true "t" emptyStorage [[("id", "x")]]) [[("id", "x")]]
      = update_litters true true "t" emptyStorage [[("id", "x")]] :=
  (update_litters_idempotent_map emptyStorage [[("id", "x")]] "t" "t").2.2 rfl

/-- C6 (counterexample): two successive `update_litters` calls with the
same input but different wall-clock times leave different StorageStates
(the `last_updated` timestamp advances), refuting idempotence of the full
state including the timestamp. -/
theorem update_litters_idempotent_counterexample :
    update_litters true true "2024-01-02"
        (update_litters true true "2024-01-01" emptyStorage []) []
      ≠ update_litters true true "2024-01-01" emptyStorage [] := by
  decide

/-- The two read-only storage operations pass the backing file through
unchanged (they are compositions of `read_data` only). -/
theorem detect_new_litters_snd (readOk : Bool) (file : StorageData)
    (cur : List Litter) : (detect_new_litters readOk file cur).2 = file := rfl

theorem scrapeResults_append (a b : List Scraper) :
    scrapeResults (a ++ b) = scrapeResults a ++ scrapeResults b := by
  simp [scrapeResults]

theorem scrapeLogs_append (a b : List Scraper) :
    scrapeLogs (a ++ b) = scrapeLogs a ++ scrapeLogs b := by
  simp [scrapeLogs]

theorem scrapeResults_cons (s : Scraper) (rest : List Scraper) :
    scrapeResults (s :: rest) = (scrape s).1 ++ scrapeResults rest := by
  simp [scrapeResults]

theorem scrapeLogs_cons (s : Scraper) (rest : List Scraper) :
    scrapeLogs (s :: rest) = (scrape s).2 ++ scrapeLogs rest := by
  simp [scrapeLogs]

/-- Closed form of one scheduler cycle: all litters are the concatenation
of the per-scraper results in order, the new/reported litters are the
diff of that whole set against storage, and the final file is the
unconditional update with that whole set. -/
theorem run_once_spec (scrapers : List Scraper) (roD roU wOk : Bool)
    (now : String) (file : StorageData) :
    run_once scrapers roD roU wOk now file
      = { all_litters := scrapeResults scrapers,
          new_litters := (detect_new_litters roD file (scrapeResults scrapers)).1,
          reported := (detect_new_litters roD file (scrapeResults scrapers)).1,
          file := update_litters roU wOk now file (scrapeResults scrapers),
          log := scrapeLogs scrapers } := by
  have hacc : scrapers.foldl
      (fun acc s => (acc.1 ++ (scrape s).1, acc.2 ++ (scrape s).2))
      (([], []) : List Litter × List String)
      = (scrapeResults scrapers, scrapeLogs scrapers) := by
    simpa using foldl_scrape scrapers ([], [])
  simp only [run_once, hacc, detect_new_litters_snd]

/-- C7: one cycle isolates per-resource failures: with an arbitrary
failing scraper anywhere in the list, every other scraper's results are
still accumulated (in order), the failure is recorded in the error log,
and the cycle runs to completion (producing a full `RunResult`) — the
exception never escapes the failing scraper's own `scrape` call. -/
theorem run_once_partial_failure_isolation (pre post : List Scraper)
    (name url emsg : String) (roD roU wOk : Bool) (now : String)
    (file : StorageData) :
    (run_once (pre ++ ⟨name, url, .error emsg⟩ :: post) roD roU wOk now file).all_litters
        = scrapeResults pre ++ scrapeResults post
    ∧ ("Error scraping " ++ name ++ ": " ++ emsg)
        ∈ (run_once (pre ++ ⟨name, url, .error emsg⟩ :: post) roD roU wOk now file).log
    ∧ (run_once (pre ++ ⟨name, url, .error emsg⟩ :: post) roD roU wOk now file).log
        = scrapeLogs pre ++ ("Error scraping " ++ name ++ ": " ++ emsg) :: scrapeLogs post := by
  have hbad1 : (scrape ⟨name, url, .error emsg⟩).1 = [] := rfl
  have hbad2 : (scrape ⟨name, url, .error emsg⟩).2
      = ["Error scraping " ++ name ++ ": " ++ emsg] := rfl
  refine ⟨?_, ?_, ?_⟩ <;>
    simp [run_once_spec, scrapeResults_append, scrapeLogs_append,
      scrapeResults_cons, scrapeLogs_cons, hbad1, hbad2]

/-- C8: in every cycle, after all scrapers run, `detect_new_litters` is
applied to the full accumulated record set, exactly those records are
reported, and `update_litters` is invoked (unconditionally, whatever the
detection outcome — including the empty one) with the full accumulated
record set. -/
theorem run_once_detect_report_update (scrapers : List Scraper)
    (roD roU wOk : Bool) (now : String) (file : StorageData) :
    (run_once scrapers roD roU wOk now file).all_litters = scrapeResults scrapers
    ∧ (run_once scrapers roD roU wOk now file).reported
        = (detect_new_litters roD file (scrapeResults scrapers)).1
    ∧ (run_once scrapers roD roU wOk now file).file
        = update_litters roU wOk now file (scrapeResults scrapers) := by
  simp [run_once_spec]

/-- C9 (amended): when the storage WRITE fails during the update step, the
cycle's detected-new records are still reported, the persisted state is
not advanced, and the identical next cycle reports the same records again
(at-least-once reporting).  When the storage READ inside the update step
fails (write succeeding), however, the store is rewritten from the
empty fallback: it then holds exactly the current cycle's records, so
previous entries are lost and the current records are not re-reported. -/
theorem persistence_write_failure_at_least_once (scrapers : List Scraper)
    (now1 now2 : String) (file : StorageData) :
    (run_once scrapers true true false now1 file).file = file
    ∧ (run_once scrapers true true false now1 file).reported
        = (detect_new_litters true file (scrapeResults scrapers)).1
    ∧ (run_once scrapers true true true now2
          (run_once scrapers true true false now1 file).file).reported
        = (run_once scrapers true true false now1 file).reported
    ∧ (run_once scrapers true false true now1 file).file.litters
        = listToDict (scrapeResults scrapers) := by
  simp only [run_once_spec, update_litters_write_fail, update_litters_read_fail]
  exact ⟨trivial, trivial, trivial, dictUpdate_nil_left (nodup_keys_listToDict _)⟩

/-- The concrete scraper list and prior storage state used by the C9
counterexample: one scraper yielding one record, and a store already
holding an unrelated record under the key `old`. -/
def cexScrapers : List Scraper := [⟨"club", "http://x", .ok [[("breeder", "B")]]⟩]

def cexFile : StorageData := ⟨[("old", [("id", "old")])], some "t0"⟩

/-- C9 (counterexample): when the READ of StorageState fails during the
update step (a PersistenceFailure), the new record is reported, but the
persisted state IS advanced: the store is rewritten without the previous
`old` entry, and the identical next cycle reports nothing — the same
records are NOT detected and reported as new again, refuting the claimed
behaviour for this PersistenceFailure. -/
theorem persistence_failure_counterexample :
    (run_once cexScrapers true false true "t1" cexFile).reported ≠ []
    ∧ (run_once cexScrapers true false true "t1" cexFile).file ≠ cexFile
    ∧ dictLookup (run_once cexScrapers true false true "t1" cexFile).file.litters "old"
        = none
    ∧ (run_once cexScrapers true true true "t2"
          (run_once cexScrapers true false true "t1" cexFile).file).reported = [] := by
  decide

/-- C10: the read-only operations `get_previous_litter_ids` and
`detect_new_litters` never modify the persisted StorageState: the backing
file (litter map and timestamp) is exactly the same after either call,
for every stored state, read outcome and input record list. -/
theorem storage_reads_leave_state_unchanged (readOk : Bool) (file : StorageData)
    (current : List Litter) :
    (get_previous_litter_ids readOk file).2 = file
    ∧ (detect_new_litters readOk file current).2 = file :=
  ⟨rfl, rfl⟩

end PuppyScraper
